import Mathlib

/-!
Shallow embedding of the DXIL validator adapter (dxil_validator.cpp) and the
panfrost pool upload helpers (pan_pool.c).

External effects (LoadLibraryA, GetProcAddress, COM object creation, the
validator service calls) are modelled by oracle records whose fields give the
results of the external calls; the functions under verification are translated
from the source as pure functions of those oracles, additionally returning an
event trace recording the observable effects (warnings printed, libraries
freed, service references released, arena frees).
-/

namespace DxilVal

/-- A loaded-library handle (HMODULE); pointers are modelled as numbers,
nullable ones as `Option`. -/
abbrev Handle := Nat

/-- A COM service object reference (IDxcValidator / IDxcLibrary /
IDxcCompiler), identified by a number. -/
abbrev Service := Nat

/-- Windows HRESULT, a signed 32-bit status code, modelled as `Int`. -/
abbrev HRESULT := Int

/-- The FAILED macro: an HRESULT indicates failure iff it is negative. -/
def FAILED (hr : HRESULT) : Bool := hr < 0

/-- The SUCCEEDED macro: an HRESULT indicates success iff it is nonnegative. -/
def SUCCEEDED (hr : HRESULT) : Bool := 0 ≤ hr

/-- E_NOINTERFACE (0x80004002) as a signed 32-bit value. -/
def E_NOINTERFACE : HRESULT := -2147467262

/-- Observable side effects of the adapter, in program order. -/
inductive Event where
  | warn (msg : String)
  | freeLibrary (h : Handle)
  | releaseService (s : Service)
  | rallocFree
deriving DecidableEq, Repr

/-- The `struct dxil_validator` context. All five fields are nullable
pointers in the source (the struct is rzalloc-zeroed), hence `Option`. -/
structure dxil_validator where
  dxil_mod : Option Handle
  dxcompiler_mod : Option Handle
  dxc_validator : Option Service
  dxc_library : Option Service
  dxc_compiler : Option Service
deriving DecidableEq, Repr

/-- sizeof(self_path) where self_path is char[MAX_PATH]. -/
def MAX_PATH : Nat := 260

/-- Oracle for the external calls made by load_dxil_mod. -/
structure LoaderWorld where
  /-- Result of LoadLibraryA("DXIL.dll") on the default search path
  (none = load failed). -/
  loadDefault : Option Handle
  /-- Return value of GetModuleFileNameA (0 on failure; equal to the buffer
  size MAX_PATH when the path was truncated or exactly filled the buffer). -/
  gmfnResult : Nat
  /-- Contents written into self_path by GetModuleFileNameA. -/
  selfPath : List Char
  /-- Result of LoadLibraryA at an explicit path (none = load failed). -/
  loadAt : List Char → Option Handle

/-- Index of the last occurrence of a character in a list (strrchr). -/
def strrchrIdx : List Char → Char → Option Nat
  | [], _ => none
  | a :: rest, c =>
    match strrchrIdx rest c with
    | some i => some (i + 1)
    | none => if a = c then some 0 else none

/-- load_dxil_mod: try the default search path first; only if that fails,
derive the directory of the currently executing module from its own path and
try loading "DXIL.dll" from there. Any self-path retrieval failure,
truncation (including the exact-fit return value), missing backslash, or
strcat_s overflow is a loader failure (none). -/
def load_dxil_mod (w : LoaderWorld) : Option Handle :=
  match w.loadDefault with
  | some mod => some mod
  | none =>
    if w.gmfnResult = 0 ∨ w.gmfnResult = MAX_PATH then
      none
    else
      match strrchrIdx w.selfPath '\\' with
      | none => none
      | some i =>
        -- *(last_slash + 1) = 0; strcat_s(self_path, "DXIL.dll")
        let dir := w.selfPath.take (i + 1)
        let full := dir ++ "DXIL.dll".toList
        if full.length + 1 ≤ MAX_PATH then
          w.loadAt full
        else
          none

/-- Oracle for the external calls made during context construction. -/
structure CreateWorld where
  loader : LoaderWorld
  /-- rzalloc of the context succeeds. -/
  rzallocOk : Bool
  /-- GetProcAddress(dxil_mod, "DxcCreateInstance") finds the symbol. -/
  dxilGetProcOk : Bool
  /-- HRESULT of dxil_create_func(CLSID_DxcValidator, ...). -/
  validatorHr : HRESULT
  /-- The IDxcValidator object produced on success. -/
  validatorObj : Service
  /-- Result of LoadLibraryA("dxcompiler.dll"). -/
  loadDxcompiler : Option Handle
  /-- GetProcAddress(dxcompiler_mod, "DxcCreateInstance") finds the symbol. -/
  dxcGetProcOk : Bool
  /-- HRESULT of compiler_create_func(CLSID_DxcLibrary, ...). -/
  libraryHr : HRESULT
  libraryObj : Service
  /-- HRESULT of compiler_create_func(CLSID_DxcCompiler, ...). -/
  compilerHr : HRESULT
  compilerObj : Service

/-- create_dxc_validator: resolve DxcCreateInstance from DXIL.dll and
instantiate the IDxcValidator service; null with a warning on either
failure. -/
def create_dxc_validator (w : CreateWorld) (_dxil_mod : Handle) :
    Option Service × List Event :=
  if !w.dxilGetProcOk then
    (none, [Event.warn "DXIL: Failed to load DxcCreateInstance from DXIL.dll"])
  else if FAILED w.validatorHr then
    (none, [Event.warn "DXIL: Failed to create validator"])
  else
    (some w.validatorObj, [])

/-- dxil_create_validator: rzalloc a zeroed context, load DXIL.dll (hard),
create the validator service (hard); on hard failure free partial state
(unload DXIL.dll if loaded, ralloc_free the context) and return null. Then
best-effort diagnostics: load dxcompiler.dll, resolve its factory, and
instantiate IDxcLibrary and IDxcCompiler independently; failures
only warn and leave fields null. -/
def dxil_create_validator (w : CreateWorld) :
    Option dxil_validator × List Event :=
  if !w.rzallocOk then (none, [])
  else
    match load_dxil_mod w.loader with
    | none => (none, [Event.warn "DXIL: Failed to load DXIL.dll", Event.rallocFree])
    | some m =>
      match create_dxc_validator w m with
      | (none, ev) => (none, ev ++ [Event.freeLibrary m, Event.rallocFree])
      | (some vs, ev) =>
        match w.loadDxcompiler with
        | none => (some ⟨some m, none, some vs, none, none⟩, ev)
        | some cm =>
          if !w.dxcGetProcOk then
            (some ⟨some m, some cm, some vs, none, none⟩,
             ev ++ [Event.warn "DXIL: Failed to load DxcCreateInstance from dxcompiler.dll"])
          else
            (some ⟨some m, some cm, some vs,
                   if FAILED w.libraryHr then none else some w.libraryObj,
                   if FAILED w.compilerHr then none else some w.compilerObj⟩,
             ev ++ (if FAILED w.libraryHr then
                      [Event.warn "DXIL: Unable to create IDxcLibrary instance"] else []) ++
                   (if FAILED w.compilerHr then
                      [Event.warn "DXIL: Unable to create IDxcCompiler instance"] else []))

/-- dxil_destroy_validator: release the validator reference, unload DXIL.dll,
then, if dxcompiler.dll was loaded, release the IDxcLibrary and IDxcCompiler
references (each only if non-null) and unload dxcompiler.dll; finally free
the arena allocation. The source dereferences dxc_validator unconditionally,
so a context with a null validator has no defined trace (none). A null
dxil_mod is passed to FreeLibrary, which fails harmlessly (no unload event). -/
def dxil_destroy_validator (val : dxil_validator) : Option (List Event) :=
  match val.dxc_validator with
  | none => none
  | some v =>
    some ([Event.releaseService v] ++
      (match val.dxil_mod with
       | some m => [Event.freeLibrary m]
       | none => []) ++
      (match val.dxcompiler_mod with
       | none => []
       | some cm =>
         (match val.dxc_library with
          | some l => [Event.releaseService l]
          | none => []) ++
         (match val.dxc_compiler with
          | some c => [Event.releaseService c]
          | none => []) ++
         [Event.freeLibrary cm]) ++
      [Event.rallocFree])

/-- The ShaderBlob adapter: a non-owning view over the caller-supplied
(pointer, size) pair. -/
structure ShaderBlob where
  m_data : Nat
  m_size : Nat
deriving DecidableEq, Repr

/-- The ShaderBlob constructor stores the pointer and size unchanged. -/
def ShaderBlob.ctor (data : Nat) (size : Nat) : ShaderBlob := ⟨data, size⟩

def ShaderBlob.GetBufferPointer (b : ShaderBlob) : Nat := b.m_data

def ShaderBlob.GetBufferSize (b : ShaderBlob) : Nat := b.m_size

/-- QueryInterface ignores the requested capability id, never writes through
the out pointer (second component none = not written), and returns
E_NOINTERFACE. -/
def ShaderBlob.QueryInterface (_b : ShaderBlob) (_riid : Nat) :
    HRESULT × Option Nat :=
  (E_NOINTERFACE, none)

/-- AddRef: no-op on the state, returns the constant 1. -/
def ShaderBlob.AddRef (b : ShaderBlob) : ShaderBlob × Nat := (b, 1)

/-- Release: no-op on the state, returns the constant 0. -/
def ShaderBlob.Release (b : ShaderBlob) : ShaderBlob × Nat := (b, 0)

/-- The state-touching operations a consumer may call on a blob. -/
inductive BlobOp where
  | addRef
  | release
deriving DecidableEq, Repr

def ShaderBlob.applyOp (b : ShaderBlob) : BlobOp → ShaderBlob
  | BlobOp.addRef => b.AddRef.1
  | BlobOp.release => b.Release.1

def ShaderBlob.applyOps (b : ShaderBlob) (ops : List BlobOp) : ShaderBlob :=
  ops.foldl ShaderBlob.applyOp b

/-- C-string contents produced by ralloc_strdup from a byte buffer: the bytes
up to (excluding) the first NUL. -/
def cstrFromBuf (buf : List Nat) : List Nat := buf.takeWhile (fun b => b != 0)

/-- The terminator write str[GetBufferSize() - 1] = 0 on the decoded buffer:
replaces the last byte with NUL; on an empty buffer the write is out of
bounds (size_t 0 - 1 wraps), so no defined result. -/
def forceTerminate (buf : List Nat) : Option (List Nat) :=
  match buf with
  | [] => none
  | _ => some (buf.dropLast ++ [0])

/-- Oracle for the external calls made by dxil_validate_module. -/
structure ValidateWorld where
  /-- hr written by result->GetStatus. -/
  statusHr : HRESULT
  /-- HRESULT of result->GetErrorBuffer. -/
  getErrorBufferHr : HRESULT
  /-- HRESULT of dxc_library->GetBlobAsUtf8. -/
  getBlobAsUtf8Hr : HRESULT
  /-- Byte contents of the decoded UTF-8 blob. -/
  utf8buf : List Nat

structure ValidateOut where
  passed : Bool
  /-- none = *error was never written; some v = the final value stored. -/
  errorWrite : Option (Option (List Nat))
  events : List Event
  /-- true when the terminator write addressed a byte outside the buffer. -/
  oobWrite : Bool
deriving DecidableEq, Repr

/-- dxil_validate_module: wrap the buffer, run the validator, read the status
hr; when validation failed and the caller passed an error out-pointer, set
*error to null, then try to decode the error buffer through IDxcLibrary and
store an arena copy; always return SUCCEEDED(hr) (the no-library branch
returns false, where FAILED hr holds). -/
def dxil_validate_module (val : dxil_validator) (w : ValidateWorld)
    (errorRequested : Bool) : ValidateOut :=
  if FAILED w.statusHr && errorRequested then
    match val.dxc_library with
    | none =>
      { passed := false
        errorWrite := some none
        events := [Event.warn "DXIL: validation failed, but lacking IDxcLibrary from dxcompiler.dll for proper diagnostics."]
        oobWrite := false }
    | some _ =>
      if FAILED w.getErrorBufferHr then
        { passed := SUCCEEDED w.statusHr
          errorWrite := some none
          events := [Event.warn "DXIL: IDxcOperationResult GetErrorBuffer failed"]
          oobWrite := false }
      else if FAILED w.getBlobAsUtf8Hr then
        { passed := SUCCEEDED w.statusHr
          errorWrite := some none
          events := [Event.warn "DXIL: IDxcLibrary GetBlobAsUtf8 failed"]
          oobWrite := false }
      else
        match forceTerminate w.utf8buf with
        | none =>
          { passed := SUCCEEDED w.statusHr
            errorWrite := some none
            events := []
            oobWrite := true }
        | some buf =>
          { passed := SUCCEEDED w.statusHr
            errorWrite := some (some (cstrFromBuf buf))
            events := []
            oobWrite := false }
  else
    { passed := SUCCEEDED w.statusHr, errorWrite := none, events := [], oobWrite := false }

/-- Oracle for the external calls made by dxil_disasm_module. -/
structure DisasmWorld where
  /-- HRESULT of dxc_compiler->Disassemble. -/
  disassembleHr : HRESULT
  /-- HRESULT of dxc_library->GetBlobAsUtf8. -/
  getBlobAsUtf8Hr : HRESULT
  /-- Byte contents of the decoded UTF-8 blob. -/
  utf8buf : List Nat

structure DisasmOut where
  result : Option (List Nat)
  events : List Event
  oobWrite : Bool
deriving DecidableEq, Repr

/-- dxil_disasm_module: require both IDxcCompiler and IDxcLibrary (warn and
return null if either is missing), disassemble, decode to UTF-8, force a
final terminator and return an arena copy; each later failure warns and
returns null. -/
def dxil_disasm_module (val : dxil_validator) (w : DisasmWorld) : DisasmOut :=
  if val.dxc_compiler.isNone || val.dxc_library.isNone then
    { result := none
      events := [Event.warn "DXIL: disassembly requires IDxcLibrary and IDxcCompiler from dxcompiler.dll"]
      oobWrite := false }
  else if FAILED w.disassembleHr then
    { result := none
      events := [Event.warn "DXIL: IDxcCompiler Disassemble failed"]
      oobWrite := false }
  else if FAILED w.getBlobAsUtf8Hr then
    { result := none
      events := [Event.warn "DXIL: IDxcLibrary GetBlobAsUtf8 failed"]
      oobWrite := false }
  else
    match forceTerminate w.utf8buf with
    | none => { result := none, events := [], oobWrite := true }
    | some buf => { result := some (cstrFromBuf buf), events := [], oobWrite := false }

/-- The event is a service release. -/
def isRelease : Event → Bool
  | Event.releaseService _ => true
  | _ => false

/-- The event is a library unload. -/
def isFree : Event → Bool
  | Event.freeLibrary _ => true
  | _ => false

/-- Some library unload occurs strictly before some service release. -/
def releaseAfterFree : List Event → Bool
  | [] => false
  | e :: rest => (isFree e && rest.any isRelease) || releaseAfterFree rest

/-- Event a occurs at a strictly earlier position than event b. -/
def eventBefore (tr : List Event) (a b : Event) : Prop :=
  ∃ i j, i < j ∧ tr.get? i = some a ∧ tr.get? j = some b

end DxilVal

namespace PanPool

/-- A GPU (device) address. -/
abbrev mali_ptr := Nat

/-- A CPU/GPU pointer pair returned by the pool allocator. -/
structure panfrost_ptr where
  cpu : Nat
  gpu : mali_ptr
deriving DecidableEq, Repr

/-- The memcpy performed by an upload: destination CPU pointer, source data
pointer, byte count. -/
structure CopyDesc where
  dst : Nat
  src : Nat
  len : Nat
deriving DecidableEq, Repr

/-- A pool, modelled by its allocator pan_pool_alloc_aligned(pool, sz,
alignment) → panfrost_ptr. -/
structure pan_pool where
  alloc : Nat → Nat → panfrost_ptr

/-- pan_pool_upload_aligned: allocate sz bytes at the given alignment, copy
the data into the returned CPU pointer, return the GPU address. -/
def pan_pool_upload_aligned (pool : pan_pool) (data : Nat) (sz : Nat)
    (alignment : Nat) : mali_ptr × CopyDesc :=
  let transfer := pool.alloc sz alignment
  (transfer.gpu, ⟨transfer.cpu, data, sz⟩)

/-- pan_pool_upload: delegate to pan_pool_upload_aligned with alignment equal
to the size. -/
def pan_pool_upload (pool : pan_pool) (data : Nat) (sz : Nat) :
    mali_ptr × CopyDesc :=
  pan_pool_upload_aligned pool data sz sz

/-- The spec side of claim C10, written from the claim text: the unaligned
upload returns the same device address and performs the same copy as the
aligned upload called with alignment equal to the upload size. -/
def pan_pool_upload_specSide (pool : pan_pool) (data : Nat) (sz : Nat) :
    mali_ptr × CopyDesc :=
  pan_pool_upload_aligned pool data sz sz

end PanPool

namespace DxilVal

/-- The directory-of-self fallback path that load_dxil_mod builds when the
self path is valid and contains a backslash at index i. -/
def besidePath (w : LoaderWorld) (i : Nat) : List Char :=
  w.selfPath.take (i + 1) ++ "DXIL.dll".toList

theorem load_dxil_mod_default (w : LoaderWorld) (m : Handle)
    (h : w.loadDefault = some m) : load_dxil_mod w = some m := by
  simp [load_dxil_mod, h]

theorem load_dxil_mod_self_fail (w : LoaderWorld)
    (h : w.loadDefault = none)
    (hg : w.gmfnResult = 0 ∨ w.gmfnResult = MAX_PATH) :
    load_dxil_mod w = none := by
  simp [load_dxil_mod, h, hg]

theorem load_dxil_mod_both_fail (w : LoaderWorld)
    (h : w.loadDefault = none)
    (ha : ∀ p, w.loadAt p = none) :
    load_dxil_mod w = none := by
  simp only [load_dxil_mod, h]
  split
  · rfl
  · cases hidx : strrchrIdx w.selfPath '\\' <;> simp [ha]

theorem load_dxil_mod_fallback (w : LoaderWorld) (i : Nat)
    (h : w.loadDefault = none)
    (hg0 : w.gmfnResult ≠ 0) (hgM : w.gmfnResult ≠ MAX_PATH)
    (hidx : strrchrIdx w.selfPath '\\' = some i)
    (hfit : (besidePath w i).length + 1 ≤ MAX_PATH) :
    load_dxil_mod w = w.loadAt (besidePath w i) := by
  simp only [load_dxil_mod, h, hidx, besidePath] at hfit ⊢
  simp at hfit
  simp [hg0, hgM, hfit]

theorem SUCCEEDED_eq_not_FAILED (hr : HRESULT) : SUCCEEDED hr = !FAILED hr := by
  rcases lt_or_ge hr 0 with h | h
  · simp [SUCCEEDED, FAILED, h, not_le.mpr h]
  · simp [SUCCEEDED, FAILED, h, not_lt.mpr h]

/-- C7: the mandatory-library loader first attempts the default system search
path and returns its handle when that succeeds; only on default-path failure
does it build the beside-self path from the executing module's own path and
attempt loading there; a self-path retrieval failure (return value 0) or
path-buffer truncation (return value equal to the buffer size, the exact-fit
case) is treated as loader failure, and when both attempts fail the result is
not-found (null). -/
theorem load_dxil_mod_search_order (w : LoaderWorld) :
    (∀ m, w.loadDefault = some m → load_dxil_mod w = some m) ∧
    (w.loadDefault = none →
      (w.gmfnResult = 0 ∨ w.gmfnResult = MAX_PATH) → load_dxil_mod w = none) ∧
    (∀ i, w.loadDefault = none → w.gmfnResult ≠ 0 → w.gmfnResult ≠ MAX_PATH →
      strrchrIdx w.selfPath '\\' = some i →
      (besidePath w i).length + 1 ≤ MAX_PATH →
      load_dxil_mod w = w.loadAt (besidePath w i)) ∧
    (w.loadDefault = none → (∀ p, w.loadAt p = none) → load_dxil_mod w = none) :=
  ⟨fun m h => load_dxil_mod_default w m h,
   fun h hg => load_dxil_mod_self_fail w h hg,
   fun i h h0 hM hidx hfit => load_dxil_mod_fallback w i h h0 hM hidx hfit,
   fun h ha => load_dxil_mod_both_fail w h ha⟩

/-- Witness for C7: a world where the default path succeeds, and a world
where the self-path retrieval succeeds but every load fails. -/
theorem load_dxil_mod_search_order_witness :
    load_dxil_mod ⟨some 7, 0, [], fun _ => none⟩ = some 7 ∧
    load_dxil_mod ⟨none, 10, [], fun _ => none⟩ = none :=
  ⟨(load_dxil_mod_search_order ⟨some 7, 0, [], fun _ => none⟩).1 7 rfl,
   (load_dxil_mod_search_order ⟨none, 10, [], fun _ => none⟩).2.2.2 rfl
     (fun _ => rfl)⟩

/-- C1: the boolean dxil_validate_module returns is SUCCEEDED of the status
HRESULT extracted from the validator's operation result, for every context,
every oracle (in particular whatever the diagnostics services and the
error-text retrieval and decoding steps do), and whether or not an error
message was requested. -/
theorem dxil_validate_module_passed (val : dxil_validator) (w : ValidateWorld)
    (errorRequested : Bool) :
    (dxil_validate_module val w errorRequested).passed = SUCCEEDED w.statusHr := by
  unfold dxil_validate_module
  split
  · next hcond =>
    rw [Bool.and_eq_true] at hcond
    split
    · simp [SUCCEEDED_eq_not_FAILED, hcond.1]
    · split
      · rfl
      · split
        · rfl
        · split <;> rfl
  · rfl

/-- C8: the blob adapter returns the caller's original pointer and size,
its acquire/release operations leave the state unchanged and return the
constants 1 and 0, every sequence of such calls leaves the blob unchanged,
and QueryInterface fails with E_NOINTERFACE (a failure HRESULT) for every
requested capability without writing the out pointer. -/
theorem ShaderBlob_adapter_spec (data size : Nat) (b : ShaderBlob)
    (riid : Nat) (ops : List BlobOp) :
    (ShaderBlob.ctor data size).GetBufferPointer = data ∧
    (ShaderBlob.ctor data size).GetBufferSize = size ∧
    b.AddRef = (b, 1) ∧
    b.Release = (b, 0) ∧
    b.QueryInterface riid = (E_NOINTERFACE, none) ∧
    FAILED E_NOINTERFACE = true ∧
    b.applyOps ops = b := by
  refine ⟨rfl, rfl, rfl, rfl, rfl, rfl, ?_⟩
  induction ops generalizing b with
  | nil => rfl
  | cons o t ih =>
    have hstep : b.applyOp o = b := by
      cases o <;> rfl
    calc b.applyOps (o :: t) = (b.applyOp o).applyOps t := rfl
      _ = b.applyOps t := by rw [hstep]
      _ = b := ih b

/-- C4: when the diagnostics-compiler or the diagnostics-library service is
missing, dxil_disasm_module emits a warning and returns the unavailable
signal (null) for every input oracle; and with the diagnostics-library
service missing, dxil_validate_module on a rejected input with an error
message requested stores null in the out-parameter, warns, and still reports
the failure by returning false. -/
theorem diag_absent_behaviour (val : dxil_validator) (w : DisasmWorld)
    (vw : ValidateWorld) :
    (val.dxc_compiler = none ∨ val.dxc_library = none →
      dxil_disasm_module val w =
        { result := none
          events := [Event.warn "DXIL: disassembly requires IDxcLibrary and IDxcCompiler from dxcompiler.dll"]
          oobWrite := false }) ∧
    (val.dxc_library = none → FAILED vw.statusHr = true →
      dxil_validate_module val vw true =
        { passed := false
          errorWrite := some none
          events := [Event.warn "DXIL: validation failed, but lacking IDxcLibrary from dxcompiler.dll for proper diagnostics."]
          oobWrite := false }) := by
  constructor
  · intro h
    rcases h with h | h <;> simp [dxil_disasm_module, h]
  · intro hl hs
    simp [dxil_validate_module, hl, hs]

/-- Witness for C4: a context with validator only (diagnostics fields null),
a rejected input, both behaviours evaluated. -/
theorem diag_absent_behaviour_witness :
    dxil_disasm_module ⟨some 1, none, some 10, none, none⟩ ⟨0, 0, []⟩ =
      { result := none
        events := [Event.warn "DXIL: disassembly requires IDxcLibrary and IDxcCompiler from dxcompiler.dll"]
        oobWrite := false } ∧
    dxil_validate_module ⟨some 1, none, some 10, none, none⟩ ⟨-1, 0, 0, []⟩ true =
      { passed := false
        errorWrite := some none
        events := [Event.warn "DXIL: validation failed, but lacking IDxcLibrary from dxcompiler.dll for proper diagnostics."]
        oobWrite := false } :=
  ⟨(diag_absent_behaviour ⟨some 1, none, some 10, none, none⟩ ⟨0, 0, []⟩
      ⟨-1, 0, 0, []⟩).1 (Or.inl rfl),
   (diag_absent_behaviour ⟨some 1, none, some 10, none, none⟩ ⟨0, 0, []⟩
      ⟨-1, 0, 0, []⟩).2 rfl rfl⟩

/-- C9: with the error out-pointer passed, on validation failure *error is
always written before returning (it holds null unless every diagnostics step
succeeded, in which case it holds the decoded string), and on validation
success *error is never written. -/
theorem dxil_validate_module_error_out (val : dxil_validator)
    (w : ValidateWorld) :
    (FAILED w.statusHr = true →
      ((dxil_validate_module val w true).errorWrite).isSome = true) ∧
    (FAILED w.statusHr = false →
      (dxil_validate_module val w true).errorWrite = none) ∧
    (∀ s, (dxil_validate_module val w true).errorWrite = some (some s) →
      val.dxc_library ≠ none ∧ FAILED w.getErrorBufferHr = false ∧
      FAILED w.getBlobAsUtf8Hr = false ∧ w.utf8buf ≠ [] ∧
      s = cstrFromBuf (w.utf8buf.dropLast ++ [0])) := by
  refine ⟨?_, ?_, ?_⟩
  · intro hf
    simp only [dxil_validate_module, hf, Bool.and_self, if_true]
    split
    · rfl
    · split
      · rfl
      · split
        · rfl
        · split <;> rfl
  · intro hf
    simp [dxil_validate_module, hf]
  · intro s hs
    by_cases hf : FAILED w.statusHr = true
    · cases hl : val.dxc_library with
      | none => simp [dxil_validate_module, hf, hl] at hs
      | some l =>
        by_cases h1 : FAILED w.getErrorBufferHr = true
        · simp [dxil_validate_module, hf, hl, h1] at hs
        · rw [Bool.not_eq_true] at h1
          by_cases h2 : FAILED w.getBlobAsUtf8Hr = true
          · simp [dxil_validate_module, hf, hl, h1, h2] at hs
          · rw [Bool.not_eq_true] at h2
            cases hb : w.utf8buf with
            | nil =>
              simp [dxil_validate_module, hf, hl, h1, h2, hb, forceTerminate] at hs
            | cons a t =>
              simp [dxil_validate_module, hf, hl, h1, h2, hb, forceTerminate] at hs
              exact ⟨by simp [hl], h1, h2, by simp [hb], hs.symm⟩
    · rw [Bool.not_eq_true] at hf
      simp [dxil_validate_module, hf] at hs

/-- C3: hard construction failures: when DXIL.dll cannot be loaded the
context is freed and null returned; when the factory symbol is missing or
the validator service cannot be instantiated, the loaded DXIL.dll is
unloaded and the context freed before returning null; consequently every
non-null context returned has a non-null validator library handle and a
non-null validator service. -/
theorem dxil_create_validator_hard_fail (w : CreateWorld) :
    (∀ ctx ev, dxil_create_validator w = (some ctx, ev) →
      ctx.dxil_mod ≠ none ∧ ctx.dxc_validator ≠ none) ∧
    (w.rzallocOk = true → load_dxil_mod w.loader = none →
      dxil_create_validator w =
        (none, [Event.warn "DXIL: Failed to load DXIL.dll", Event.rallocFree])) ∧
    (∀ m, w.rzallocOk = true → load_dxil_mod w.loader = some m →
      (w.dxilGetProcOk = false ∨ FAILED w.validatorHr = true) →
      ∃ ev, dxil_create_validator w = (none, ev) ∧
        Event.freeLibrary m ∈ ev ∧ Event.rallocFree ∈ ev) := by
  refine ⟨?_, ?_, ?_⟩
  · intro ctx ev h
    unfold dxil_create_validator at h
    split at h
    · simp at h
    · split at h
      · simp at h
      · split at h
        · simp at h
        · split at h
          · rw [Prod.mk.injEq] at h
            injection h.1 with h1
            subst h1
            simp
          · split at h
            · rw [Prod.mk.injEq] at h
              injection h.1 with h1
              subst h1
              simp
            · rw [Prod.mk.injEq] at h
              injection h.1 with h1
              subst h1
              simp
  · intro h1 h2
    simp [dxil_create_validator, h1, h2]
  · intro m hrz hload hfail
    have hc : (create_dxc_validator w m).1 = none := by
      rcases hfail with hp | hv
      · simp [create_dxc_validator, hp]
      · by_cases hp : w.dxilGetProcOk = true
        · simp [create_dxc_validator, hp, hv]
        · rw [Bool.not_eq_true] at hp
          simp [create_dxc_validator, hp]
    obtain ⟨evc, hc'⟩ : ∃ evc, create_dxc_validator w m = (none, evc) := by
      cases hcv : create_dxc_validator w m with
      | mk a b =>
        rw [hcv] at hc
        simp only at hc
        subst hc
        exact ⟨b, rfl⟩
    refine ⟨evc ++ [Event.freeLibrary m, Event.rallocFree], ?_, ?_, ?_⟩
    · simp [dxil_create_validator, hrz, hload, hc']
    · simp
    · simp

/-- Witness for C3: a world where the factory symbol is missing from a
successfully loaded DXIL.dll, and one where DXIL.dll cannot be loaded at
all. -/
theorem dxil_create_validator_hard_fail_witness :
    (∃ ev, dxil_create_validator
        ⟨⟨some 1, 0, [], fun _ => none⟩, true, false, 0, 10, none, false, 0, 11, 0, 12⟩ =
        (none, ev) ∧ Event.freeLibrary 1 ∈ ev ∧ Event.rallocFree ∈ ev) ∧
    dxil_create_validator
        ⟨⟨none, 0, [], fun _ => none⟩, true, true, 0, 10, none, false, 0, 11, 0, 12⟩ =
      (none, [Event.warn "DXIL: Failed to load DXIL.dll", Event.rallocFree]) :=
  ⟨(dxil_create_validator_hard_fail
      ⟨⟨some 1, 0, [], fun _ => none⟩, true, false, 0, 10, none, false, 0, 11, 0, 12⟩).2.2
      1 rfl rfl (Or.inl rfl),
   (dxil_create_validator_hard_fail
      ⟨⟨none, 0, [], fun _ => none⟩, true, true, 0, 10, none, false, 0, 11, 0, 12⟩).2.1
      rfl rfl⟩

/-- C5 counterexample: when LoadLibraryA("dxcompiler.dll") itself fails
during construction, no warning is logged at all: the hard steps succeed and
construction returns a context with an EMPTY event trace, refuting the claim
that every failed diagnostics step — including loading the diagnostics
library — logs a warning. -/
theorem dxil_create_validator_silent_load_counterexample :
    dxil_create_validator
        ⟨⟨some 1, 0, [], fun _ => none⟩, true, true, 0, 10, none, false, 0, 11, 0, 12⟩ =
      (some ⟨some 1, none, some 10, none, none⟩, []) := by
  decide

/-- C5 (amended): once the hard steps have succeeded, every diagnostics step
is soft: construction returns a non-null context for every diagnostics
outcome, never unloads a library and never frees the context; a failure to
load dxcompiler.dll itself is silent (the event trace is empty), while a
missing factory symbol and each failed service instantiation log a warning;
the diagnostics-library and diagnostics-compiler instantiations are
attempted independently of each other: each field is determined by its own
creation HRESULT alone. -/
theorem dxil_create_validator_diag_soft (w : CreateWorld) (m : Handle)
    (hrz : w.rzallocOk = true)
    (hm : load_dxil_mod w.loader = some m)
    (hproc : w.dxilGetProcOk = true)
    (hvhr : FAILED w.validatorHr = false) :
    ∃ ctx ev, dxil_create_validator w = (some ctx, ev) ∧
      (∀ e ∈ ev, isFree e = false ∧ e ≠ Event.rallocFree) ∧
      ctx.dxil_mod = some m ∧
      ctx.dxc_validator = some w.validatorObj ∧
      ctx.dxcompiler_mod = w.loadDxcompiler ∧
      (w.loadDxcompiler = none →
        ctx.dxc_library = none ∧ ctx.dxc_compiler = none ∧ ev = []) ∧
      (w.loadDxcompiler.isSome = true → w.dxcGetProcOk = false →
        ctx.dxc_library = none ∧ ctx.dxc_compiler = none ∧
        Event.warn "DXIL: Failed to load DxcCreateInstance from dxcompiler.dll" ∈ ev) ∧
      (w.loadDxcompiler.isSome = true → w.dxcGetProcOk = true →
        ctx.dxc_library = (if FAILED w.libraryHr then none else some w.libraryObj) ∧
        ctx.dxc_compiler = (if FAILED w.compilerHr then none else some w.compilerObj) ∧
        (FAILED w.libraryHr = true →
          Event.warn "DXIL: Unable to create IDxcLibrary instance" ∈ ev) ∧
        (FAILED w.compilerHr = true →
          Event.warn "DXIL: Unable to create IDxcCompiler instance" ∈ ev)) := by
  have hcv : create_dxc_validator w m = (some w.validatorObj, []) := by
    simp [create_dxc_validator, hproc, hvhr]
  cases hdc : w.loadDxcompiler with
  | none =>
    refine ⟨⟨some m, none, some w.validatorObj, none, none⟩, [],
      ?_, ?_, rfl, rfl, rfl, ?_, ?_, ?_⟩
    · simp [dxil_create_validator, hrz, hm, hcv, hdc]
    · intro e he
      simp at he
    · exact fun _ => ⟨rfl, rfl, rfl⟩
    · intro h
      simp at h
    · intro h
      simp at h
  | some cm =>
    by_cases hgp : w.dxcGetProcOk = true
    · refine ⟨⟨some m, some cm, some w.validatorObj,
          if FAILED w.libraryHr then none else some w.libraryObj,
          if FAILED w.compilerHr then none else some w.compilerObj⟩,
        (if FAILED w.libraryHr then
          [Event.warn "DXIL: Unable to create IDxcLibrary instance"] else []) ++
        (if FAILED w.compilerHr then
          [Event.warn "DXIL: Unable to create IDxcCompiler instance"] else []),
        ?_, ?_, rfl, rfl, rfl, ?_, ?_, ?_⟩
      · simp [dxil_create_validator, hrz, hm, hcv, hdc, hgp]
      · intro e he
        rcases List.mem_append.mp he with h | h
        · split at h
          · simp at h
            subst h
            exact ⟨rfl, by simp⟩
          · simp at h
        · split at h
          · simp at h
            subst h
            exact ⟨rfl, by simp⟩
          · simp at h
      · intro h
        simp at h
      · intro _ h
        rw [h] at hgp
        simp at hgp
      · intro _ _
        refine ⟨rfl, rfl, ?_, ?_⟩
        · intro hfl
          simp [hfl]
        · intro hfc
          simp [hfc]
    · rw [Bool.not_eq_true] at hgp
      refine ⟨⟨some m, some cm, some w.validatorObj, none, none⟩,
        [Event.warn "DXIL: Failed to load DxcCreateInstance from dxcompiler.dll"],
        ?_, ?_, rfl, rfl, rfl, ?_, ?_, ?_⟩
      · simp [dxil_create_validator, hrz, hm, hcv, hdc, hgp]
      · intro e he
        simp at he
        subst he
        exact ⟨rfl, by simp⟩
      · intro h
        simp at h
      · intro _ _
        exact ⟨rfl, rfl, by simp⟩
      · intro _ h
        rw [h] at hgp
        simp at hgp

/-- Witness for C5: diagnostics library present, factory found, IDxcLibrary
creation succeeding while IDxcCompiler creation fails, yet a context is
returned. -/
theorem dxil_create_validator_diag_soft_witness :
    ∃ ctx ev, dxil_create_validator
        ⟨⟨some 1, 0, [], fun _ => none⟩, true, true, 0, 10, some 2, true, 0, 11, -1, 12⟩ =
        (some ctx, ev) ∧ ctx.dxc_library = some 11 ∧ ctx.dxc_compiler = none := by
  obtain ⟨ctx, ev, h1, _, _, _, _, _, _, h8⟩ :=
    dxil_create_validator_diag_soft
      ⟨⟨some 1, 0, [], fun _ => none⟩, true, true, 0, 10, some 2, true, 0, 11, -1, 12⟩
      1 rfl rfl rfl rfl
  obtain ⟨hl, hc, -, -⟩ := h8 rfl rfl
  exact ⟨ctx, ev, h1, by rw [hl]; decide, by rw [hc]; decide⟩

/-- Witness for C9: a failing status with full diagnostics (the out-pointer
gets written), and a succeeding status (the out-pointer is untouched). -/
theorem dxil_validate_module_error_out_witness :
    ((dxil_validate_module ⟨some 1, some 2, some 10, some 11, some 12⟩
        ⟨-1, 0, 0, [72, 73]⟩ true).errorWrite).isSome = true ∧
    (dxil_validate_module ⟨some 1, some 2, some 10, some 11, some 12⟩
        ⟨3, 0, 0, [72, 73]⟩ true).errorWrite = none :=
  ⟨(dxil_validate_module_error_out ⟨some 1, some 2, some 10, some 11, some 12⟩
      ⟨-1, 0, 0, [72, 73]⟩).1 rfl,
   (dxil_validate_module_error_out ⟨some 1, some 2, some 10, some 11, some 12⟩
      ⟨3, 0, 0, [72, 73]⟩).2.1 rfl⟩

theorem cstrFromBuf_cons_ne (a : Nat) (l : List Nat) (ha : a ≠ 0) :
    cstrFromBuf (a :: l) = a :: cstrFromBuf l := by
  simp [cstrFromBuf, List.takeWhile_cons, ha]

theorem cstrFromBuf_forced_ne_nil (a b : Nat) (t : List Nat) (ha : a ≠ 0) :
    cstrFromBuf ((a :: b :: t).dropLast ++ [0]) ≠ [] := by
  have h : (a :: b :: t).dropLast ++ [0] = a :: ((b :: t).dropLast ++ [0]) := rfl
  rw [h, cstrFromBuf_cons_ne a _ ha]
  simp

/-- C2 counterexample: with the diagnostics-library service available,
validation failed, an error message requested, and every decoding step
succeeding, a one-byte decoded buffer yields the EMPTY stored error string
(its only byte is overwritten by the forced terminator before the arena
copy), and on an empty decoded buffer the terminator write is out of bounds
and no string is stored at all — refuting the non-emptiness guarantee for
"every decoded buffer, including an empty or one-byte buffer". -/
theorem validate_error_string_counterexample :
    (dxil_validate_module ⟨some 1, some 2, some 10, some 11, some 12⟩
        ⟨-1, 0, 0, [65]⟩ true).errorWrite = some (some []) ∧
    (dxil_validate_module ⟨some 1, some 2, some 10, some 11, some 12⟩
        ⟨-1, 0, 0, []⟩ true).errorWrite = some none ∧
    (dxil_validate_module ⟨some 1, some 2, some 10, some 11, some 12⟩
        ⟨-1, 0, 0, []⟩ true).oobWrite = true := by
  decide

/-- C2 (amended): when the diagnostics-library service is available,
validation fails, an error message is requested, and both decode steps
succeed, the stored string is the arena copy of the NUL-free prefix of the
decoded buffer with its final byte forcibly replaced by a terminator; it is
non-empty provided the decoded buffer has at least two bytes and does not
start with a NUL byte (a one-byte buffer stores the empty string, an empty
buffer's terminator write is out of bounds). The same holds of the string
dxil_disasm_module returns for an accepted buffer. -/
theorem error_string_amended (val : dxil_validator) (w : ValidateWorld)
    (dw : DisasmWorld) (lib : Service)
    (hlib : val.dxc_library = some lib)
    (hst : FAILED w.statusHr = true)
    (heb : FAILED w.getErrorBufferHr = false)
    (hutf : FAILED w.getBlobAsUtf8Hr = false)
    (hlen : 2 ≤ w.utf8buf.length)
    (hhead : w.utf8buf.head? ≠ some 0) :
    (∃ s, (dxil_validate_module val w true).errorWrite = some (some s) ∧
      s ≠ [] ∧ s = cstrFromBuf (w.utf8buf.dropLast ++ [0])) ∧
    (val.dxc_compiler ≠ none → FAILED dw.disassembleHr = false →
      FAILED dw.getBlobAsUtf8Hr = false → 2 ≤ dw.utf8buf.length →
      dw.utf8buf.head? ≠ some 0 →
      ∃ t, (dxil_disasm_module val dw).result = some t ∧
        t ≠ [] ∧ t = cstrFromBuf (dw.utf8buf.dropLast ++ [0])) := by
  constructor
  · obtain ⟨a, b, t, hb⟩ : ∃ a b t, w.utf8buf = a :: b :: t := by
      cases hx : w.utf8buf with
      | nil => rw [hx] at hlen; simp at hlen
      | cons a rest =>
        cases rest with
        | nil => rw [hx] at hlen; simp at hlen
        | cons b t => exact ⟨a, b, t, rfl⟩
    have ha : a ≠ 0 := by
      rw [hb] at hhead
      simpa using hhead
    refine ⟨cstrFromBuf (w.utf8buf.dropLast ++ [0]), ?_, ?_, rfl⟩
    · simp [dxil_validate_module, hlib, hst, heb, hutf, hb, forceTerminate]
    · rw [hb]
      exact cstrFromBuf_forced_ne_nil a b t ha
  · intro hcomp hd1 hd2 hdlen hdhead
    obtain ⟨c0, hc0⟩ : ∃ c0, val.dxc_compiler = some c0 := by
      cases hx : val.dxc_compiler with
      | none => exact absurd hx hcomp
      | some c0 => exact ⟨c0, rfl⟩
    obtain ⟨a, b, t, hb⟩ : ∃ a b t, dw.utf8buf = a :: b :: t := by
      cases hx : dw.utf8buf with
      | nil => rw [hx] at hdlen; simp at hdlen
      | cons a rest =>
        cases rest with
        | nil => rw [hx] at hdlen; simp at hdlen
        | cons b t => exact ⟨a, b, t, rfl⟩
    have ha : a ≠ 0 := by
      rw [hb] at hdhead
      simpa using hdhead
    refine ⟨cstrFromBuf (dw.utf8buf.dropLast ++ [0]), ?_, ?_, rfl⟩
    · simp [dxil_disasm_module, hc0, hlib, hd1, hd2, hb, forceTerminate]
    · rw [hb]
      exact cstrFromBuf_forced_ne_nil a b t ha

/-- Witness for the amended C2: a two-byte decoded error buffer yields a
non-empty stored string, and a two-byte decoded disassembly buffer yields a
non-empty returned string. -/
theorem error_string_amended_witness :
    (∃ s, (dxil_validate_module ⟨some 1, some 2, some 10, some 11, some 12⟩
        ⟨-1, 0, 0, [72, 105]⟩ true).errorWrite = some (some s) ∧ s ≠ []) ∧
    (∃ t, (dxil_disasm_module ⟨some 1, some 2, some 10, some 11, some 12⟩
        ⟨0, 0, [68, 88]⟩).result = some t ∧ t ≠ []) := by
  obtain ⟨⟨s, hs1, hs2, -⟩, h2⟩ :=
    error_string_amended ⟨some 1, some 2, some 10, some 11, some 12⟩
      ⟨-1, 0, 0, [72, 105]⟩ ⟨0, 0, [68, 88]⟩ 11 rfl (by decide) (by decide)
      (by decide) (by decide) (by decide)
  obtain ⟨t, ht1, ht2, -⟩ := h2 (by decide) rfl rfl (by decide) (by decide)
  exact ⟨⟨s, hs1, hs2⟩, ⟨t, ht1, ht2⟩⟩

/-- C6 counterexample: on a fully populated context, destroy releases the
validator service, then unloads the validator library BEFORE releasing the
diagnostics-library and diagnostics-compiler services, so not every service
release happens before the first library unload; the release order
(validator first) is acquisition order, not reverse. -/
theorem dxil_destroy_validator_counterexample :
    dxil_destroy_validator ⟨some 1, some 2, some 10, some 11, some 12⟩ =
      some [Event.releaseService 10, Event.freeLibrary 1,
            Event.releaseService 11, Event.releaseService 12,
            Event.freeLibrary 2, Event.rallocFree] ∧
    releaseAfterFree [Event.releaseService 10, Event.freeLibrary 1,
            Event.releaseService 11, Event.releaseService 12,
            Event.freeLibrary 2, Event.rallocFree] = true := by
  decide

/-- C6 (amended): destroy, applied once to a successfully constructed
context, releases each held non-null service reference exactly once,
releases the validator service before unloading the validator library, and
releases the diagnostics services (in acquisition order, library then
compiler) before unloading the diagnostics library; the validator library
is however unloaded before the diagnostics services are released. -/
theorem dxil_destroy_validator_order (m cm : Handle) (v l c : Service)
    (hvl : v ≠ l) (hvc : v ≠ c) (hlc : l ≠ c) :
    (∃ tr, dxil_destroy_validator ⟨some m, some cm, some v, some l, some c⟩ =
        some tr ∧
      tr.count (Event.releaseService v) = 1 ∧
      tr.count (Event.releaseService l) = 1 ∧
      tr.count (Event.releaseService c) = 1 ∧
      eventBefore tr (Event.releaseService v) (Event.freeLibrary m) ∧
      eventBefore tr (Event.releaseService l) (Event.freeLibrary cm) ∧
      eventBefore tr (Event.releaseService c) (Event.freeLibrary cm) ∧
      eventBefore tr (Event.freeLibrary m) (Event.releaseService l) ∧
      eventBefore tr (Event.releaseService v) (Event.releaseService l) ∧
      eventBefore tr (Event.releaseService l) (Event.releaseService c)) ∧
    (∃ tr, dxil_destroy_validator ⟨some m, none, some v, none, none⟩ =
        some tr ∧
      tr = [Event.releaseService v, Event.freeLibrary m, Event.rallocFree]) := by
  constructor
  · refine ⟨[Event.releaseService v, Event.freeLibrary m,
      Event.releaseService l, Event.releaseService c,
      Event.freeLibrary cm, Event.rallocFree], rfl, ?_, ?_, ?_,
      ⟨0, 1, by omega, rfl, rfl⟩, ⟨2, 4, by omega, rfl, rfl⟩,
      ⟨3, 4, by omega, rfl, rfl⟩, ⟨1, 2, by omega, rfl, rfl⟩,
      ⟨0, 2, by omega, rfl, rfl⟩, ⟨2, 3, by omega, rfl, rfl⟩⟩
    · simp [List.count_cons, Ne.symm hvl, Ne.symm hvc]
    · simp [List.count_cons, hvl, Ne.symm hlc]
    · simp [List.count_cons, hvc, hlc]
  · exact ⟨[Event.releaseService v, Event.freeLibrary m, Event.rallocFree],
      rfl, rfl⟩

/-- Witness for the amended C6: the no-diagnostics teardown trace at a
concrete context. -/
theorem dxil_destroy_validator_order_witness :
    ∃ tr, dxil_destroy_validator ⟨some 1, none, some 10, none, none⟩ =
        some tr ∧
      tr = [Event.releaseService 10, Event.freeLibrary 1, Event.rallocFree] :=
  (dxil_destroy_validator_order 1 2 10 11 12
    (by decide) (by decide) (by decide)).2

end DxilVal

namespace PanPool

/-- C10: pan_pool_upload returns exactly the same device address and
performs exactly the same copy as pan_pool_upload_aligned called with
alignment equal to the upload size (the spec-side reading of the claim). -/
theorem pan_pool_upload_refines (pool : pan_pool) (data sz : Nat) :
    pan_pool_upload pool data sz = pan_pool_upload_specSide pool data sz := rfl

end PanPool
